import Mathlib

/-!
Verification of the pypiserver metrics plugin (pypiserver-metrics-plugin).

Shallow embedding of `src/pypiserver_metrics_plugin/collector.py` and
`src/pypiserver_metrics_plugin/plugin.py`.

Modelling conventions:
  * Wall-clock time (`time.time()`, a float in Python) is modelled by `Int`.
    The two adjacent `time.time()` reads on the duration line of
    `MetricsPlugin._after_request` are modelled as the same instant `now`.
  * Prometheus instruments are modelled by the sequence of events they have
    absorbed: a labelled counter by the list of label tuples of its `inc`
    calls, a histogram by the list of its `observe` calls, a gauge by the
    last value `set` on it.
  * Python exceptions are modelled by `Except String` (the `String` is the
    exception message); a Python `try/except Exception` corresponds to
    matching away the `.error` case.
  * Duck-typed collaborator objects (the Bottle `request`, the storage
    backend, the filename parser, the Prometheus text renderer) are
    parameters of the embedded functions; their fallible accessors return
    `Except String`.
-/

namespace PypiMetrics

/-- A stored package as the storage backend exposes it: the model keeps the
one attribute the plugin reads, `pkg.pkgname` (plugin.py line 196). -/
structure Package where
  pkgname : String
deriving DecidableEq, Repr

/-- State of `MetricsCollector` (collector.py): each Prometheus instrument the
plugin's request path touches, modelled by the events it has absorbed.
Counters are lists of label tuples (most recent first), the histogram is the
list of its observations, gauges hold their current value. -/
structure MetricsCollector where
  http_requests_total : List (String × String × String) := []
  http_request_duration_seconds : List (String × String × String × Int) := []
  package_downloads_total : List (String × String) := []
  package_uploads_total : List (String × String) := []
  searches_total : List String := []
  packages_total : Int := 0
  projects_total : Int := 0
  server_info : List (String × String) := []
  start_time : Int := 0
  uptime_seconds : Int := 0
deriving DecidableEq, Repr

/-- `MetricsCollector.record_http_request` (collector.py lines 143-153):
increments the labelled counter and observes the duration on the histogram,
both labelled by (method, endpoint, status_code). -/
def MetricsCollector.record_http_request (c : MetricsCollector)
    (method endpoint status_code : String) (duration : Int) : MetricsCollector :=
  { c with
    http_requests_total := (method, endpoint, status_code) :: c.http_requests_total,
    http_request_duration_seconds :=
      (method, endpoint, status_code, duration) :: c.http_request_duration_seconds }

/-- `MetricsCollector.record_download` (collector.py lines 155-159). -/
def MetricsCollector.record_download (c : MetricsCollector)
    (package_name filename : String) : MetricsCollector :=
  { c with package_downloads_total :=
      (package_name, filename) :: c.package_downloads_total }

/-- `MetricsCollector.record_upload` (collector.py lines 161-165); the label
is `user or "anonymous"`, i.e. the empty (falsy) string becomes "anonymous". -/
def MetricsCollector.record_upload (c : MetricsCollector)
    (package_name user : String) : MetricsCollector :=
  { c with package_uploads_total :=
      (package_name, if user = "" then "anonymous" else user)
        :: c.package_uploads_total }

/-- `MetricsCollector.record_search` (collector.py lines 184-186). -/
def MetricsCollector.record_search (c : MetricsCollector)
    (search_type : String) : MetricsCollector :=
  { c with searches_total := search_type :: c.searches_total }

/-- `MetricsCollector.update_package_counts` (collector.py lines 177-182):
sets both repository-state gauges. -/
def MetricsCollector.update_package_counts (c : MetricsCollector)
    (package_count project_count : Nat) : MetricsCollector :=
  { c with packages_total := package_count, projects_total := project_count }

/-- `MetricsCollector.set_server_info` (collector.py lines 207-217). -/
def MetricsCollector.set_server_info (c : MetricsCollector)
    (version backend_type fallback_url : String) : MetricsCollector :=
  { c with server_info :=
      [("version", version), ("backend_type", backend_type),
       ("fallback_url", fallback_url)] }

/-- `MetricsCollector.update_uptime` (collector.py lines 219-221). -/
def MetricsCollector.update_uptime (c : MetricsCollector)
    (now : Int) : MetricsCollector :=
  { c with uptime_seconds := now - c.start_time }

/-- The `prometheus_client.CONTENT_TYPE_LATEST` constant used by
`generate_metrics` (collector.py line 233). -/
def CONTENT_TYPE_LATEST : String := "text/plain; version=0.0.4; charset=utf-8"

/-- The Bottle `request` object as `_after_request` and
`_record_application_metrics` read it. `forms` is `request.forms.get(key,
default)`, `files` the multipart parts as (part name, raw_filename) pairs,
`auth` the parsed (user, password) of the Authorization header; each of these
accessors can raise, which the model makes an `Except String`.
`metrics_start_time` is the `_metrics_start_time` attribute stamped by
`_before_request`, absent when that hook never fired. -/
structure Request where
  path : String
  method : String
  forms : String → String → Except String String
  files : Except String (List (String × String))
  auth : Except String (Option (String × String))
  metrics_start_time : Option Int

/-- Whether the character list `p` is an initial segment of `s` (structural
recursion, so that concrete instances reduce in the kernel). -/
def starts_with : List Char → List Char → Bool
  | _, [] => true
  | [], _ :: _ => false
  | a :: s, b :: p => a = b && starts_with s p

/-- Python `s.startswith(pre)`. -/
def py_startswith (s pre : String) : Bool :=
  starts_with s.toList pre.toList

/-- The character list after the first occurrence of `sep` in the input, or
none when `sep` (assumed non-empty) does not occur. -/
def split_after (sep : List Char) : List Char → Option (List Char)
  | [] => if starts_with [] sep then some [] else none
  | a :: t =>
    if starts_with (a :: t) sep then some ((a :: t).drop sep.length)
    else split_after sep t

/-- Python `s.split(sep, 1)[-1]` for non-empty `sep`: everything after the
first occurrence of `sep`, or `s` itself when `sep` does not occur. -/
def py_split_rest (s sep : String) : String :=
  match split_after sep.toList s.toList with
  | some r => String.mk r
  | none => s

/-- The characters before the first occurrence of `c`. -/
def take_until (c : Char) : List Char → List Char
  | [] => []
  | a :: t => if a = c then [] else a :: take_until c t

/-- The filename extraction of plugin.py line 118:
`path.split("/packages/", 1)[-1].split("?")[0]`. -/
def extract_filename (path : String) : String :=
  String.mk (take_until '?' (py_split_rest path "/packages/").toList)

/-- `MetricsPlugin._record_application_metrics` (plugin.py lines 104-147),
parameterised by the filename-parsing collaborator `guess`
(`pypiserver.pkg_helpers.guess_pkgname_and_version`, which returns the
(pkgname, version) pair or None, or raises). Returns the collector after the
classification, or the exception it raised. Note the source wraps none of
this in try/except. -/
def record_application_metrics
    (guess : String → Except String (Option (String × String)))
    (req : Request) (status_code : String) (c : MetricsCollector) :
    Except String MetricsCollector :=
  if req.method = "GET" && py_startswith req.path "/packages/"
      && status_code = "200" then
    if extract_filename req.path ≠ "" then
      match guess (extract_filename req.path) with
      | .error e => .error e
      | .ok (some pkg_info) =>
        .ok (c.record_download pkg_info.1 (extract_filename req.path))
      | .ok none => .ok c
    else .ok c
  else if req.method = "POST" && req.path = "/" && status_code = "200" then
    match req.forms ":action" "" with
    | .error e => .error e
    | .ok action =>
      if action = "file_upload" then
        match req.files with
        | .error e => .error e
        | .ok parts =>
          match parts.find? (fun p => p.1 = "content") with
          | some uploaded_file =>
            match guess uploaded_file.2 with
            | .error e => .error e
            | .ok (some pkg_info) =>
              match req.auth with
              | .error e => .error e
              | .ok auth =>
                let user := match auth with
                  | some a => a.1
                  | none => "anonymous"
                .ok (c.record_upload pkg_info.1 user)
            | .ok none => .ok c
          | none => .ok c
      else .ok c
  else if req.method = "POST" && req.path = "/RPC2" && status_code = "200" then
    .ok (c.record_search "xmlrpc")
  else .ok c

/-- `MetricsPlugin._after_request` (plugin.py lines 81-102). `collector` is
`self.collector` (None until setup). Returns the collector state after the
hook together with the exception, if any, that escaped the hook; mutations
performed before the raise (the generic HTTP metric) are kept, as they are on
the real mutable registry. The duration line
`time.time() - getattr(request, "_metrics_start_time", time.time())` is
modelled with both clock reads at the same instant `now`. -/
def after_request
    (guess : String → Except String (Option (String × String)))
    (now : Int) (req : Request) (status_code : Nat)
    (collector : Option MetricsCollector) :
    Option MetricsCollector × Option String :=
  match collector with
  | none => (none, none)
  | some c =>
    match record_application_metrics guess req (toString status_code)
        (c.record_http_request req.method req.path (toString status_code)
          (now - (req.metrics_start_time.getD now))) with
    | .ok c2 => (some c2, none)
    | .error e =>
      (some (c.record_http_request req.method req.path (toString status_code)
        (now - (req.metrics_start_time.getD now))), some e)

/-- The storage backend collaborator: `get_all_packages n` is the result of
the (n+1)-st call the refresh makes on it during one scrape — the source
calls it twice (plugin.py lines 191 and 195), and the backend may answer each
call with a different snapshot, or raise. -/
structure Backend where
  get_all_packages : Nat → Except String (List Package)

/-- `self.config` as `_update_repository_stats` reads it: the guard
`if not self.config or not self.config.backend` makes both the config and its
backend attribute optional. -/
structure Config where
  backend : Option Backend

/-- `MetricsPlugin._update_repository_stats` (plugin.py lines 179-213).
Returns the collector after the refresh together with the number of
`get_all_packages` queries the refresh issued. Both `except` arms
(AttributeError, then Exception) swallow the failure and leave the gauges
untouched. -/
def update_repository_stats (config : Option Config) (c : MetricsCollector) :
    MetricsCollector × Nat :=
  match config with
  | none => (c, 0)
  | some cfg =>
    match cfg.backend with
    | none => (c, 0)
    | some b =>
      match b.get_all_packages 0 with
      | .error _ => (c, 1)
      | .ok l1 =>
        match b.get_all_packages 1 with
        | .error _ => (c, 2)
        | .ok l2 =>
          (c.update_package_counts l1.length
            ((l2.map Package.pkgname).toFinset.card), 2)

/-- The `metrics_handler` closure of `MetricsPlugin._add_metrics_endpoint`
(plugin.py lines 158-174), parameterised by the Prometheus text renderer
`render` (`prometheus_client.generate_latest`, which may raise). Returns
(status, content_type, body, collector after the scrape). The try/except
catches every exception of the scrape path, so the handler always returns a
response; inside the try, `_update_repository_stats` cannot raise (it
swallows its own failures) and `generate_metrics` first sets the uptime gauge
and then renders. -/
def metrics_handler (config : Option Config)
    (render : MetricsCollector → Except String String)
    (now : Int) (c : MetricsCollector) :
    Nat × String × String × MetricsCollector :=
  match render (((update_repository_stats config c).1).update_uptime now) with
  | .ok body => (200, CONTENT_TYPE_LATEST, body,
      ((update_repository_stats config c).1).update_uptime now)
  | .error e =>
    (500, "text/plain", "Error generating metrics: " ++ e ++ "\n",
      ((update_repository_stats config c).1).update_uptime now)

/-- A registered Bottle route, keeping the one attribute the conflict check
reads, `route.rule`. -/
structure Route where
  rule : String
deriving DecidableEq, Repr

/-- The registration part of `MetricsPlugin._add_metrics_endpoint` (plugin.py
lines 149-156 and 176): raise RuntimeError when the configured endpoint
equals the rule of an already registered route, otherwise register the
endpoint as a new route. -/
def add_metrics_endpoint (metrics_endpoint : String) (routes : List Route) :
    Except String (List Route) :=
  if metrics_endpoint ∈ routes.map Route.rule then
    .error ("Metrics endpoint " ++ metrics_endpoint
      ++ " overlaps with existing routes")
  else
    .ok (routes ++ [{ rule := metrics_endpoint }])

/-- Joins components with a hyphen (Python `"-".join(parts)`). -/
def join_dashed : List String → String
  | [] => ""
  | [s] => s
  | s :: rest => s ++ "-" ++ join_dashed rest

/-- Splits a character list at every occurrence of `c`. -/
def split_on_char (c : Char) : List Char → List (List Char)
  | [] => [[]]
  | a :: t =>
    let r := split_on_char c t
    if a = c then [] :: r
    else
      match r with
      | [] => [[a]]
      | h :: rest => (a :: h) :: rest

/-- Python `s.endswith(suf)`. -/
def py_endswith (s suf : String) : Bool :=
  starts_with s.toList.reverse suf.toList.reverse

/-- The name/version split of the modelled filename parser: the project name
is split from the version at the first hyphen-separated component that starts
with a digit. -/
def split_name_version : List String → Option (String × String)
  | [] => none
  | p :: rest =>
    match rest with
    | [] => none
    | q :: _ =>
      if (q.toList.headD 'x').isDigit then
        some (p, join_dashed rest)
      else
        match split_name_version rest with
        | some nv => some (p ++ "-" ++ nv.1, nv.2)
        | none => none

/-- Modelled from the spec: the filename-parsing collaborator
`pypiserver.pkg_helpers.guess_pkgname_and_version` is not part of this
repository. Per the spec it derives (project_name, version) from a raw
filename and may fail to parse. This model handles sdist names
`name-version.tar.gz` (the shape the claims exercise). Never raises;
returns none on filenames it cannot parse. -/
def guess_pkgname_and_version (filename : String) :
    Except String (Option (String × String)) :=
  if py_endswith filename ".tar.gz" then
    let chars := filename.toList
    let base := chars.take (chars.length - 7)
    .ok (split_name_version ((split_on_char '-' base).map String.mk))
  else
    .ok none

/-! ## Concrete collaborators used by the theorems below -/

/-- A plain Bottle GET request at `p` whose fallible accessors all succeed
trivially; `stamp` is the `_metrics_start_time` attribute. -/
def get_request (p : String) (stamp : Option Int) : Request :=
  { path := p, method := "GET", forms := fun _ d => .ok d,
    files := .ok [], auth := .ok none, metrics_start_time := stamp }

/-- A filename parser that raises on every input, as
`guess_pkgname_and_version` can on a malformed filename. -/
def raising_guess : String → Except String (Option (String × String)) :=
  fun _ => .error "boom"

/-- A backend whose first query returns one package and whose second returns
an empty list: the repository changed between the refresh's two queries. -/
def backend_two_snapshots : Backend :=
  { get_all_packages := fun n => if n = 0 then .ok [{ pkgname := "a" }] else .ok [] }

/-- A backend that answers every query with the same two files of one
project. -/
def backend_const : Backend :=
  { get_all_packages := fun _ => .ok [{ pkgname := "a" }, { pkgname := "a" }] }

/-- A backend whose every query raises. -/
def backend_failing : Backend :=
  { get_all_packages := fun _ => .error "db down" }

/-! ## Helper lemmas -/

/-- Classification never touches the generic HTTP instruments: when
`_record_application_metrics` returns normally, the HTTP counter and the
duration histogram are exactly as it received them. -/
theorem record_application_metrics_preserves_http
    (guess : String → Except String (Option (String × String)))
    (req : Request) (sc : String) (c c2 : MetricsCollector)
    (h : record_application_metrics guess req sc c = .ok c2) :
    c2.http_requests_total = c.http_requests_total ∧
    c2.http_request_duration_seconds = c.http_request_duration_seconds := by
  unfold record_application_metrics at h
  repeat' split at h
  all_goals
    first
    | exact Except.noConfusion h
    | (injection h with h
       subst h
       exact ⟨rfl, rfl⟩)

/-! ## Claims -/

/-- C1 (amended): for every request the after-request hook processes with a
live collector, the recorded duration is now minus the stamped start time
with no clamping (it is negative when the stamp exceeds now); when no stamp
was recorded by the before-request hook, the recorded duration is 0. -/
theorem c1_after_request_duration
    (guess : String → Except String (Option (String × String)))
    (now : Int) (req : Request) (status_code : Nat) (c : MetricsCollector) :
    ∃ c2, (after_request guess now req status_code (some c)).1 = some c2 ∧
      c2.http_request_duration_seconds =
        (req.method, req.path, toString status_code,
          match req.metrics_start_time with
          | some stamp => now - stamp
          | none => 0) :: c.http_request_duration_seconds := by
  have hd : now - (req.metrics_start_time.getD now) =
      (match req.metrics_start_time with
       | some stamp => now - stamp
       | none => (0 : Int)) := by
    cases req.metrics_start_time with
    | none => simp
    | some s => rfl
  cases hrec : record_application_metrics guess req (toString status_code)
      (MetricsCollector.record_http_request c req.method req.path
        (toString status_code) (now - (req.metrics_start_time.getD now))) with
  | ok c2 =>
    refine ⟨c2, ?_, ?_⟩
    · simp only [after_request, hrec]
    · have hp := record_application_metrics_preserves_http guess req
        (toString status_code) _ c2 hrec
      rw [hp.2, ← hd]
      rfl
  | error e =>
    refine ⟨c.record_http_request req.method req.path (toString status_code)
      (now - (req.metrics_start_time.getD now)), ?_, ?_⟩
    · simp only [after_request, hrec]
    · rw [← hd]
      rfl

/-- C1 counterexample: at now = 3 with a stamped start time of 5 the hook
records duration -2, not the clamped value max 0 (3 - 5) = 0 that the claim
states. -/
theorem c1_counterexample :
    ((after_request guess_pkgname_and_version 3 (get_request "/x" (some 5))
        200 (some {})).1.map
      (fun c => c.http_request_duration_seconds)) =
      some [("GET", "/x", "200", -2)] ∧
    ¬ (-2 : Int) = max (0 : Int) (3 - 5) := by decide

/-- C2: the after-request hook at a package download whose filename parser
raises. The exception escapes the hook (second component of the result),
while the generic HTTP counter and histogram have already been recorded
exactly once; the source wraps the classification in no try/except, so
nothing swallows the failure at the classification boundary. -/
theorem c2_classification_error_escapes :
    (after_request raising_guess 1
        (get_request "/packages/evil-1.0.tar.gz" (some 0)) 200 (some {})).2 =
      some "boom" ∧
    ((after_request raising_guess 1
        (get_request "/packages/evil-1.0.tar.gz" (some 0)) 200 (some {})).1.map
      (fun c => c.http_requests_total)) =
      some [("GET", "/packages/evil-1.0.tar.gz", "200")] ∧
    ((after_request raising_guess 1
        (get_request "/packages/evil-1.0.tar.gz" (some 0)) 200 (some {})).1.map
      (fun c => c.http_request_duration_seconds)) =
      some [("GET", "/packages/evil-1.0.tar.gz", "200", 1)] := by decide

/-- C3 (amended): when both backend queries succeed, the refresh queries the
backend twice, sets packages_total to the length of the first query's list
and projects_total to the number of distinct project names in the second
query's list; with an unchanging backend both gauges therefore reflect one
snapshot. -/
theorem c3_update_repository_stats (b : Backend) (c : MetricsCollector)
    (l1 l2 : List Package)
    (h1 : b.get_all_packages 0 = .ok l1) (h2 : b.get_all_packages 1 = .ok l2) :
    (update_repository_stats (some { backend := some b }) c).2 = 2 ∧
    (update_repository_stats (some { backend := some b }) c).1.packages_total
      = l1.length ∧
    (update_repository_stats (some { backend := some b }) c).1.projects_total
      = ((l2.map Package.pkgname).toFinset.card : Int) := by
  unfold update_repository_stats
  simp [h1, h2, MetricsCollector.update_package_counts]

/-- C3 witness: a backend answering both queries with the same two files of
one project yields packages_total 2, projects_total 1 after 2 queries. -/
theorem c3_witness :
    (update_repository_stats (some { backend := some backend_const }) {}).2 = 2 ∧
    (update_repository_stats
      (some { backend := some backend_const }) {}).1.packages_total = 2 ∧
    (update_repository_stats
      (some { backend := some backend_const }) {}).1.projects_total = 1 := by
  have h := c3_update_repository_stats backend_const {}
    [{ pkgname := "a" }, { pkgname := "a" }]
    [{ pkgname := "a" }, { pkgname := "a" }] rfl rfl
  refine ⟨h.1, ?_, ?_⟩
  · rw [h.2.1]; decide
  · rw [h.2.2]; decide

/-- C3 counterexample: with a backend whose repository shrinks between the
refresh's two queries, the refresh makes 2 queries (not the single query the
claim states) and sets packages_total = 1 and projects_total = 0, a pair no
single package list can produce — the gauges do not reflect one snapshot. -/
theorem c3_counterexample :
    (update_repository_stats
      (some { backend := some backend_two_snapshots }) {}).2 = 2 ∧
    ¬ ∃ l : List Package,
        (update_repository_stats
          (some { backend := some backend_two_snapshots }) {}).1.packages_total
          = l.length ∧
        (update_repository_stats
          (some { backend := some backend_two_snapshots }) {}).1.projects_total
          = ((l.map Package.pkgname).toFinset.card : Int) := by
  constructor
  · decide
  · rintro ⟨l, h1, h2⟩
    have hp : (update_repository_stats
        (some { backend := some backend_two_snapshots })
        ({} : MetricsCollector)).1.packages_total = 1 := by decide
    have hq : (update_repository_stats
        (some { backend := some backend_two_snapshots })
        ({} : MetricsCollector)).1.projects_total = 0 := by decide
    rw [hp] at h1
    rw [hq] at h2
    have hl : l.length = 1 := by exact_mod_cast h1.symm
    obtain ⟨a, rfl⟩ := List.length_eq_one.mp hl
    simp at h2

/-- C4: for GET /packages/foo-1.0.0.tar.gz with status 200 the hook records
exactly one download event, with project name foo and filename
foo-1.0.0.tar.gz; the same request with status 404 records no download
event. -/
theorem c4_download_classification :
    ((after_request guess_pkgname_and_version 0
        (get_request "/packages/foo-1.0.0.tar.gz" (some 0)) 200
        (some {})).1.map (fun c => c.package_downloads_total)) =
      some [("foo", "foo-1.0.0.tar.gz")] ∧
    ((after_request guess_pkgname_and_version 0
        (get_request "/packages/foo-1.0.0.tar.gz" (some 0)) 404
        (some {})).1.map (fun c => c.package_downloads_total)) =
      some [] := by decide

/-- C5: when a backend query during a scrape raises (on the first query or
the second) and rendering succeeds, the scrape returns status 200 with the
rendered metrics, and both repository gauges keep their prior values. -/
theorem c5_backend_failure_scrape (b : Backend)
    (render : MetricsCollector → Except String String) (now : Int)
    (c : MetricsCollector) (body : String)
    (hfail : (∃ e, b.get_all_packages 0 = .error e) ∨
             (∃ l e, b.get_all_packages 0 = .ok l ∧
                     b.get_all_packages 1 = .error e))
    (hrender : render (c.update_uptime now) = .ok body) :
    metrics_handler (some { backend := some b }) render now c =
      (200, CONTENT_TYPE_LATEST, body, c.update_uptime now) ∧
    (c.update_uptime now).packages_total = c.packages_total ∧
    (c.update_uptime now).projects_total = c.projects_total := by
  have hstats : (update_repository_stats
      (some { backend := some b }) c).1 = c := by
    unfold update_repository_stats
    rcases hfail with ⟨e, he⟩ | ⟨l, e, hl, he⟩
    · simp [he]
    · simp [hl, he]
  refine ⟨?_, rfl, rfl⟩
  unfold metrics_handler
  rw [hstats, hrender]

/-- C5 witness: a backend whose queries all raise, with a renderer returning
the body "metrics", at now = 7 from the fresh collector. -/
theorem c5_witness :
    metrics_handler (some { backend := some backend_failing })
      (fun _ => .ok "metrics") 7 {} =
      (200, CONTENT_TYPE_LATEST, "metrics",
        MetricsCollector.update_uptime {} 7) ∧
    (MetricsCollector.update_uptime {} 7).packages_total =
      ({} : MetricsCollector).packages_total ∧
    (MetricsCollector.update_uptime {} 7).projects_total =
      ({} : MetricsCollector).projects_total :=
  c5_backend_failure_scrape backend_failing (fun _ => .ok "metrics") 7 {}
    "metrics" (Or.inl ⟨"db down", rfl⟩) rfl

/-- C6: when rendering raises during a scrape, the handler catches the
exception (it returns a response rather than propagating) with status 500,
content type text/plain, and a body containing the failure's message. -/
theorem c6_render_failure (config : Option Config)
    (render : MetricsCollector → Except String String) (now : Int)
    (c : MetricsCollector) (e : String)
    (hrender : render (((update_repository_stats config c).1).update_uptime
      now) = .error e) :
    (metrics_handler config render now c).1 = 500 ∧
    (metrics_handler config render now c).2.1 = "text/plain" ∧
    (metrics_handler config render now c).2.2.1 =
      "Error generating metrics: " ++ e ++ "\n" := by
  unfold metrics_handler
  rw [hrender]
  exact ⟨rfl, rfl, rfl⟩

/-- C6 witness: a renderer that raises "boom" on every state. -/
theorem c6_witness :
    (metrics_handler none (fun _ => .error "boom") 0 {}).1 = 500 ∧
    (metrics_handler none (fun _ => .error "boom") 0 {}).2.1 = "text/plain" ∧
    (metrics_handler none (fun _ => .error "boom") 0 {}).2.2.1 =
      "Error generating metrics: boom\n" := by
  have h := c6_render_failure none (fun _ => .error "boom") 0 {} "boom" rfl
  exact ⟨h.1, h.2.1, h.2.2.trans (by decide)⟩

/-- C7: registering the metrics endpoint fails (no route is registered) when
its path equals the rule of an already registered route, and otherwise
registers the endpoint as a new route. -/
theorem c7_endpoint_conflict (ep : String) (routes : List Route) :
    (ep ∈ routes.map Route.rule →
      ∀ r, add_metrics_endpoint ep routes ≠ .ok r) ∧
    (ep ∉ routes.map Route.rule →
      add_metrics_endpoint ep routes = .ok (routes ++ [{ rule := ep }])) := by
  constructor
  · intro hmem r
    unfold add_metrics_endpoint
    rw [if_pos hmem]
    exact fun h => Except.noConfusion h
  · intro hmem
    unfold add_metrics_endpoint
    rw [if_neg hmem]

/-- C7 witness: registering /metrics fails against a route list already
holding /metrics and succeeds against one holding only /simple. -/
theorem c7_witness :
    (∀ r, add_metrics_endpoint "/metrics" [{ rule := "/metrics" }] ≠ .ok r) ∧
    add_metrics_endpoint "/metrics" [{ rule := "/simple" }] =
      .ok [{ rule := "/simple" }, { rule := "/metrics" }] :=
  ⟨(c7_endpoint_conflict "/metrics" [{ rule := "/metrics" }]).1 (by decide),
   (c7_endpoint_conflict "/metrics" [{ rule := "/simple" }]).2 (by decide)⟩

/-- C9: for GET /packages/ (empty path tail) with status 200, the hook
returns without error, the resulting collector is exactly the input with one
generic HTTP request recorded, and in particular no download event is
recorded — for every filename parser and every starting collector state. -/
theorem c9_empty_filename
    (guess : String → Except String (Option (String × String)))
    (c : MetricsCollector) :
    after_request guess 0 (get_request "/packages/" (some 0)) 200 (some c) =
      (some (c.record_http_request "GET" "/packages/" "200" 0), none) ∧
    (c.record_http_request "GET" "/packages/" "200" 0).package_downloads_total
      = c.package_downloads_total := by
  exact ⟨rfl, rfl⟩

/-- C10: when the after-request hook fires while the plugin's collector is
still None, it returns normally (no exception) and there is no collector
state to mutate: the hook is the identity on the absent registry. -/
theorem c10_uninitialized_collector
    (guess : String → Except String (Option (String × String)))
    (now : Int) (req : Request) (status_code : Nat) :
    after_request guess now req status_code none = (none, none) := rfl

end PypiMetrics
